import Mathlib

set_option maxRecDepth 8192

/-!
A shallow embedding of the Gemini file-manager tools of this repository
(`upload-file.ts`, `list-files.ts`, the `download-file.ts` tests) and proofs
about their validation and execution behavior.

JavaScript conventions that matter here are embedded explicitly:
string template interpolation of `undefined` renders the text "undefined",
`a || b` returns `b` when `a` is absent, the empty string, or the number 0,
and a conditional on a number treats 0 as false.
-/

/-- The members of the repository's `ToolErrorType` enumeration used by the
upload / download / list tools. -/
inductive ToolErrorType where
  | UPLOAD_NOT_SUPPORTED
  | FILE_UPLOAD_FAILURE
  | DOWNLOAD_NOT_SUPPORTED
  | FILE_DOWNLOAD_FAILURE
  | FILE_LIST_FAILURE
  deriving DecidableEq, Repr

/-- The `error` descriptor carried by a `ToolResult`. -/
structure ToolError where
  message : String
  type : ToolErrorType
  deriving DecidableEq, Repr

/-- The result value returned by every tool invocation `execute`. -/
structure ToolResult where
  llmContent : String
  returnDisplay : String
  error : Option ToolError := none
  deriving DecidableEq, Repr

/-- The members of the repository's `AuthType` enumeration. -/
inductive AuthType where
  | USE_GEMINI
  | USE_VERTEX_AI
  | LOGIN_WITH_GOOGLE
  | CLOUD_SHELL
  deriving DecidableEq, Repr

/-- The part of `ContentGeneratorConfig` read by these tools. -/
structure ContentGeneratorConfig where
  apiKey : String
  vertexai : Bool
  authType : AuthType
  deriving DecidableEq, Repr

/-- Parameters of the UploadFile tool. -/
structure UploadFileToolParams where
  absolute_path : String
  display_name : Option String := none
  deriving DecidableEq, Repr

/-- Parameters of the ListFiles tool (`page_size` is an optional JS number). -/
structure ListFilesToolParams where
  page_size : Option Int := none
  deriving DecidableEq, Repr

/-- Parameters of the DownloadFile tool. -/
structure DownloadFileToolParams where
  file_uri : String
  download_path : String
  deriving DecidableEq, Repr

/-- A remote file descriptor (`File` of the genai SDK): all fields the tools
read are optional.  `sizeBytes` is a JS number in the tests. -/
structure GeminiFile where
  name : Option String := none
  uri : Option String := none
  displayName : Option String := none
  mimeType : Option String := none
  sizeBytes : Option Int := none
  state : Option String := none
  createTime : Option String := none
  deriving DecidableEq, Repr

/-- The environment a tool's validation reads through `Config`: the workspace
context, the storage's project temp dir, path resolution, the ignore service,
and the filesystem.  `existsSync` and `lstatIsFile` return `none` when the
filesystem call would throw. -/
structure ToolEnv where
  isPathWithinWorkspace : String → Bool
  workspaceDirectories : List String
  projectTempDir : String
  resolve : String → String
  shouldGeminiIgnoreFile : String → Bool
  existsSync : String → Option Bool
  lstatIsFile : String → Option Bool
  parentExists : String → Bool
  contentGeneratorConfig : ContentGeneratorConfig

/-- JS `String.prototype.trim`, written with structural recursion so that it
evaluates by kernel reduction. -/
def jsTrim (s : String) : String :=
  String.mk (((s.data.dropWhile Char.isWhitespace).reverse.dropWhile
    Char.isWhitespace).reverse)

/-- `s.startsWith(pre)`, written with structural recursion. -/
def strStartsWith (s pre : String) : Bool := pre.data.isPrefixOf s.data

/-- `Array.prototype.join(sep)`, written with structural recursion. -/
def joinWith (sep : String) : List String → String
  | [] => ""
  | [x] => x
  | x :: y :: xs => x ++ sep ++ joinWith sep (y :: xs)

/-- Splits a character list at every slash (helper for `pathBasename`). -/
def splitSlashAux : List Char → List Char → List (List Char)
  | [], acc => [acc.reverse]
  | c :: rest, acc =>
    if c = '/' then acc.reverse :: splitSlashAux rest []
    else splitSlashAux rest (c :: acc)

/-- POSIX `path.isAbsolute`. -/
def pathIsAbsolute (p : String) : Bool := strStartsWith p ("/")

/-- POSIX `path.basename` (the last nonempty path component). -/
def pathBasename (p : String) : String :=
  match ((splitSlashAux p.data []).filter (fun s => s ≠ [])).getLast? with
  | some s => String.mk s
  | none => ""

/-- JS `a || d` for an optional string `a` and a string default `d`:
`undefined` and the empty string fall through to the default. -/
def jsOrStr (a : Option String) (d : String) : String :=
  match a with
  | none => d
  | some s => if s = "" then d else s

/-- JS `a || b` for two optional strings: the first truthy value, else `b`. -/
def jsOrOpt (a b : Option String) : Option String :=
  match a with
  | none => b
  | some s => if s = "" then b else some s

/-- JS template interpolation of a possibly-`undefined` string. -/
def jsShowOpt (a : Option String) : String :=
  match a with
  | none => "undefined"
  | some s => s

/-- The rendering `sizeBytes ? sizeBytes + " bytes" : "unknown"`: a JS number
conditional treats 0 as false. -/
def renderSize (a : Option Int) : String :=
  match a with
  | none => "unknown"
  | some n => if n = 0 then "unknown" else toString n ++ " bytes"

/-- `resolvedFilePath.startsWith(resolvedProjectTempDir + path.sep) ||
resolvedFilePath === resolvedProjectTempDir` of the upload validation. -/
def isWithinTempDir (env : ToolEnv) (filePath : String) : Bool :=
  let resolvedFilePath := env.resolve filePath
  let resolvedProjectTempDir := env.resolve env.projectTempDir
  strStartsWith resolvedFilePath (resolvedProjectTempDir ++ "/") ||
    resolvedFilePath = resolvedProjectTempDir

/-- The upload validation message for an empty path. -/
def uploadMsgEmpty : String := "The \x27absolute_path\x27 parameter must be non-empty."

/-- The upload validation message for a relative path. -/
def uploadMsgRelative (filePath : String) : String :=
  "File path must be absolute, but was relative: " ++ filePath ++
    ". You must provide an absolute path."

/-- The upload validation message for a path outside the sandbox. -/
def uploadMsgContainment (env : ToolEnv) : String :=
  "File path must be within one of the workspace directories: " ++
    joinWith (", ") env.workspaceDirectories ++
    " or within the project temp directory: " ++ env.projectTempDir

/-- The upload validation message for an ignored path. -/
def uploadMsgIgnored (filePath : String) : String :=
  "File path \x27" ++ filePath ++ "\x27 is ignored by .geminiignore pattern(s)."

/-- The upload validation message for a missing file. -/
def uploadMsgNoExist (filePath : String) : String :=
  "File does not exist: " ++ filePath

/-- The upload validation message for a non-regular-file path. -/
def uploadMsgNotFile (filePath : String) : String :=
  "Path is not a file: " ++ filePath

/-- The upload validation message when the filesystem check throws. -/
def uploadMsgAccess (filePath : String) : String :=
  "File does not exist or cannot be accessed: " ++ filePath

/-- The upload capability message under Vertex AI. -/
def uploadMsgVertex : String :=
  "File upload is not supported when using Vertex AI. Please use Gemini API (GEMINI_API_KEY) or OAuth authentication."

/-- The upload capability message for an unsupported auth type. -/
def uploadMsgAuth : String :=
  "File upload requires either Gemini API key (GEMINI_API_KEY) or OAuth authentication."

/-- `UploadFileTool.validateToolParamValues` (upload-file.ts, lines 151-209),
check for check in source order: empty, relative, containment (with the temp
carve-out), ignore pattern, existence, regular file, then the Vertex and auth
gates; `none` means the parameters are valid. -/
def uploadValidateToolParamValues (env : ToolEnv) (params : UploadFileToolParams) :
    Option String :=
  let filePath := params.absolute_path
  if jsTrim params.absolute_path = "" then some uploadMsgEmpty
  else if ¬ pathIsAbsolute filePath then some (uploadMsgRelative filePath)
  else if ¬ env.isPathWithinWorkspace filePath ∧ ¬ isWithinTempDir env filePath then
    some (uploadMsgContainment env)
  else if env.shouldGeminiIgnoreFile params.absolute_path then
    some (uploadMsgIgnored filePath)
  else
    match env.existsSync params.absolute_path with
    | none => some (uploadMsgAccess filePath)
    | some false => some (uploadMsgNoExist filePath)
    | some true =>
      match env.lstatIsFile params.absolute_path with
      | none => some (uploadMsgAccess filePath)
      | some false => some (uploadMsgNotFile filePath)
      | some true =>
        let cfg := env.contentGeneratorConfig
        if cfg.vertexai then some uploadMsgVertex
        else if cfg.authType ≠ AuthType.USE_GEMINI ∧
            cfg.authType ≠ AuthType.LOGIN_WITH_GOOGLE then some uploadMsgAuth
        else none

/-- The success message composed by `UploadFileToolInvocation.execute`
(upload-file.ts, lines 85-95). -/
def uploadSuccessMessage (params : UploadFileToolParams) (uploadedFile : GeminiFile) :
    String :=
  let fileName := pathBasename params.absolute_path
  let displayName := jsOrStr uploadedFile.displayName fileName
  let fileUri := jsOrOpt uploadedFile.uri uploadedFile.name
  "Successfully uploaded file: " ++ displayName ++
    "\nFile URI: " ++ jsShowOpt fileUri ++
    "\nMIME Type: " ++ jsShowOpt uploadedFile.mimeType ++
    "\nSize: " ++ renderSize uploadedFile.sizeBytes ++
    "\nState: " ++ jsShowOpt uploadedFile.state ++
    "\n\nYou can now reference this file in your prompts using the file URI."

/-- `UploadFileToolInvocation.execute` (upload-file.ts, lines 53-114).  The
awaited remote call `googleGenAI.files.upload(...)` is modelled by its
outcome `adapter`: `Except.error e` is a raised error whose
`getErrorMessage` is `e`. -/
def uploadExecute (cfg : ContentGeneratorConfig) (params : UploadFileToolParams)
    (adapter : Except String GeminiFile) : ToolResult :=
  if cfg.vertexai then
    let errorMsg := uploadMsgVertex
    { llmContent := errorMsg, returnDisplay := errorMsg,
      error := some { message := errorMsg, type := ToolErrorType.UPLOAD_NOT_SUPPORTED } }
  else
    match adapter with
    | Except.ok uploadedFile =>
      let successMessage := uploadSuccessMessage params uploadedFile
      { llmContent := successMessage, returnDisplay := successMessage, error := none }
    | Except.error errorMessage =>
      let errorMsg := "Error uploading file \x27" ++ params.absolute_path ++ "\x27: " ++
        errorMessage
      { llmContent := errorMsg, returnDisplay := errorMsg,
        error := some { message := errorMsg, type := ToolErrorType.FILE_UPLOAD_FAILURE } }

/-- The list validation message for a non-positive page size. -/
def listMsgPageSize : String := "page_size must be a positive number"

/-- The list capability message under Vertex AI. -/
def listMsgVertex : String :=
  "File listing is not supported when using Vertex AI. Please use Gemini API (GEMINI_API_KEY) or OAuth authentication."

/-- The list capability message for an unsupported auth type. -/
def listMsgAuth : String :=
  "File listing requires either Gemini API key (GEMINI_API_KEY) or OAuth authentication."

/-- The authentication tail of the list validation (list-files.ts, lines
166-179): the Vertex gate, then the auth-type gate. -/
def listValidateAuth (cfg : ContentGeneratorConfig) : Option String :=
  if cfg.vertexai then some listMsgVertex
  else if cfg.authType ≠ AuthType.USE_GEMINI ∧
      cfg.authType ≠ AuthType.LOGIN_WITH_GOOGLE then some listMsgAuth
  else none

/-- `ListFilesTool.validateToolParamValues` (list-files.ts, lines 159-180):
page-size positivity, then the Vertex gate, then the auth-type gate. -/
def listValidateToolParamValues (cfg : ContentGeneratorConfig)
    (params : ListFilesToolParams) : Option String :=
  match params.page_size with
  | some n =>
    if n ≤ 0 then some listMsgPageSize else listValidateAuth cfg
  | none => listValidateAuth cfg

/-- The empty-listing message of `ListFilesToolInvocation.execute`. -/
def listEmptyMessage : String := "No files found in the Gemini API file manager."

/-- One entry of the formatted file list (list-files.ts, lines 87-101):
`index` is the 0-based position, rendered 1-based. -/
def listEntry (index : Nat) (file : GeminiFile) : String :=
  let displayName := jsOrStr file.displayName ("N/A")
  let uri := jsOrStr (jsOrOpt file.uri file.name) ("N/A")
  let mimeType := jsOrStr file.mimeType ("unknown")
  let size := renderSize file.sizeBytes
  let state := jsOrStr file.state ("unknown")
  let createTime := jsOrStr file.createTime ("unknown")
  toString (index + 1) ++ ". " ++ displayName ++
    "\n   URI: " ++ uri ++
    "\n   MIME Type: " ++ mimeType ++
    "\n   Size: " ++ size ++
    "\n   State: " ++ state ++
    "\n   Created: " ++ createTime

/-- The non-empty success message of `ListFilesToolInvocation.execute`
(list-files.ts, lines 85-108): `files.map((file, index) => ...)`
joined with blank lines, inside the header and the trailing hint. -/
def listSuccessMessage (files : List GeminiFile) : String :=
  let filesList := joinWith ("\n\n") (List.mapIdx listEntry files)
  "Found " ++ toString files.length ++ " file(s) in Gemini API file manager:\n\n" ++
    filesList ++
    "\n\nYou can reference these files in your prompts using their URI, or download them using the download_file tool."

/-- The outcome of iterating the remote listing sequence: either the whole
finite sequence, or a raise after some already-collected items. -/
inductive ListOutcome where
  | ok (files : List GeminiFile)
  | failed (collected : List GeminiFile) (errorMessage : String)
  deriving DecidableEq, Repr

/-- `ListFilesToolInvocation.execute` (list-files.ts, lines 41-127).  The
`for await` loop and the remote call sit inside one `try`, so a raise during
iteration discards the collected items and lands in the `catch`. -/
def listExecute (cfg : ContentGeneratorConfig) (outcome : ListOutcome) : ToolResult :=
  if cfg.vertexai then
    let errorMsg := listMsgVertex
    { llmContent := errorMsg, returnDisplay := errorMsg,
      error := some { message := errorMsg, type := ToolErrorType.DOWNLOAD_NOT_SUPPORTED } }
  else
    match outcome with
    | ListOutcome.failed _ errorMessage =>
      let errorMsg := "Error listing files from Gemini API: " ++ errorMessage
      { llmContent := errorMsg, returnDisplay := errorMsg,
        error := some { message := errorMsg, type := ToolErrorType.FILE_LIST_FAILURE } }
    | ListOutcome.ok files =>
      if files.length = 0 then
        { llmContent := listEmptyMessage, returnDisplay := listEmptyMessage, error := none }
      else
        let successMessage := listSuccessMessage files
        { llmContent := successMessage, returnDisplay := successMessage, error := none }

/-- The download capability message under Vertex AI (from the test suite). -/
def downloadMsgVertex : String :=
  "File download is not supported when using Vertex AI. Please use Gemini API (GEMINI_API_KEY) or OAuth authentication."

/-- The download containment message, analogous to the upload one (the test
suite checks its prefix "Download path must be within one of the workspace
directories"). -/
def downloadMsgContainment (env : ToolEnv) : String :=
  "Download path must be within one of the workspace directories: " ++
    joinWith (", ") env.workspaceDirectories ++
    " or within the project temp directory: " ++ env.projectTempDir

/-- Modelled from the spec: `DownloadFileTool.validateToolParamValues` of
download-file.ts is not among the provided sources (only its test suite is).
Per the spec, Download validates the non-empty file identifier and non-empty
target path, raises the capability fault before any path or existence check
under the unsupported authentication mode, and then applies the sandbox to
the target path — absolute, contained in a workspace root or the temp
carve-out, and parent-directory existence (the target itself need not
exist).  The messages are the ones the test suite asserts. -/
def downloadValidateToolParamValues (env : ToolEnv) (params : DownloadFileToolParams) :
    Option String :=
  if jsTrim params.file_uri = "" then
    some "The \x27file_uri\x27 parameter must be non-empty."
  else if jsTrim params.download_path = "" then
    some "The \x27download_path\x27 parameter must be non-empty."
  else if env.contentGeneratorConfig.vertexai then some downloadMsgVertex
  else if ¬ pathIsAbsolute params.download_path then
    some ("Download path must be absolute, but was relative: " ++ params.download_path ++
      ". You must provide an absolute path.")
  else if ¬ env.isPathWithinWorkspace params.download_path ∧
      ¬ isWithinTempDir env params.download_path then
    some (downloadMsgContainment env)
  else if ¬ env.parentExists params.download_path then
    some ("Parent directory does not exist: " ++ params.download_path)
  else none

/-- Modelled from the spec: `DownloadFileToolInvocation.execute` of
download-file.ts is not among the provided sources (only its test suite is).
Per the spec and the tests, it calls the adapter's download with the remote
identifier and target path; on success it returns a confirmation containing
the identifier and the target path, and a raise is caught and wrapped into a
result whose error type is the download failure kind and whose strings
contain "Error downloading file". -/
def downloadExecute (params : DownloadFileToolParams)
    (adapter : Except String Unit) : ToolResult :=
  match adapter with
  | Except.ok _ =>
    let m := "Successfully downloaded file " ++ params.file_uri ++ " to " ++
      params.download_path
    { llmContent := m, returnDisplay := m, error := none }
  | Except.error errorMessage =>
    let errorMsg := "Error downloading file \x27" ++ params.file_uri ++ "\x27: " ++
      errorMessage
    { llmContent := errorMsg, returnDisplay := errorMsg,
      error := some { message := errorMsg, type := ToolErrorType.FILE_DOWNLOAD_FAILURE } }

/-- A ToolResult that reports a failure: both strings are the message and
the error descriptor carries the message and the kind. -/
def errResult (msg : String) (t : ToolErrorType) : ToolResult :=
  { llmContent := msg, returnDisplay := msg,
    error := some { message := msg, type := t } }

/-- A ToolResult that reports success: both strings are the message and the
error field is unset. -/
def okResult (msg : String) : ToolResult :=
  { llmContent := msg, returnDisplay := msg, error := none }

/-- The message of the first rule in the list whose condition holds (the
spec's "first applicable rejection"). -/
def firstApplicable : List (Bool × String) → Option String
  | [] => none
  | r :: rest => if r.1 then some r.2 else firstApplicable rest

/-- The authentication tail of the upload validation (upload-file.ts, lines
195-206), reached only when no sandbox rule fires. -/
def uploadValidateAuth (cfg : ContentGeneratorConfig) : Option String :=
  if cfg.vertexai then some uploadMsgVertex
  else if cfg.authType ≠ AuthType.USE_GEMINI ∧
      cfg.authType ≠ AuthType.LOGIN_WITH_GOOGLE then some uploadMsgAuth
  else none

/-- The six sandbox rejection rules of the Upload validation, as the spec
orders them: empty path, not absolute, not contained (workspace roots or
temp carve-out), ignore pattern, does not exist, not a regular file. -/
def uploadRejectionRules (env : ToolEnv) (params : UploadFileToolParams) :
    List (Bool × String) :=
  let filePath := params.absolute_path
  [ (decide (jsTrim params.absolute_path = ""), uploadMsgEmpty),
    (! pathIsAbsolute filePath, uploadMsgRelative filePath),
    ((! env.isPathWithinWorkspace filePath) && (! isWithinTempDir env filePath),
      uploadMsgContainment env),
    (env.shouldGeminiIgnoreFile filePath, uploadMsgIgnored filePath),
    (decide (env.existsSync params.absolute_path = some false),
      uploadMsgNoExist filePath),
    (decide (env.lstatIsFile params.absolute_path = some false),
      uploadMsgNotFile filePath) ]

/-- One enumeration entry as the spec words it: the 1-based position, then
display name, remote URI, MIME type, size, lifecycle state and creation
timestamp, each absent field defaulting to "N/A" or "unknown". -/
def specEntry (position : Nat) (file : GeminiFile) : String :=
  toString position ++ ". " ++ jsOrStr file.displayName ("N/A") ++
    "\n   URI: " ++ jsOrStr (jsOrOpt file.uri file.name) ("N/A") ++
    "\n   MIME Type: " ++ jsOrStr file.mimeType ("unknown") ++
    "\n   Size: " ++ renderSize file.sizeBytes ++
    "\n   State: " ++ jsOrStr file.state ("unknown") ++
    "\n   Created: " ++ jsOrStr file.createTime ("unknown")

/-- The spec-side enumeration: entries at 1-based positions, in exactly the
order the sequence produced the descriptors. -/
def specEnumerate (position : Nat) : List GeminiFile → List String
  | [] => []
  | f :: fs => specEntry position f :: specEnumerate (position + 1) fs

/-- The Gemini-API-key configuration of the test fixtures. -/
def geminiConfig : ContentGeneratorConfig :=
  { apiKey := "test-api-key", vertexai := false, authType := AuthType.USE_GEMINI }

/-- The Vertex AI configuration of the test fixtures. -/
def vertexConfig : ContentGeneratorConfig :=
  { apiKey := "test-api-key", vertexai := true, authType := AuthType.USE_VERTEX_AI }

/-- A concrete environment mirroring the test fixture: one workspace root
`/ws` whose membership test is a path-prefix check, temp dir `/ws/.temp`,
no ignored paths, every path existing as a regular file with an existing
parent. -/
def testEnv (cfg : ContentGeneratorConfig) : ToolEnv :=
  { isPathWithinWorkspace := fun p => strStartsWith p ("/ws/") || p = "/ws"
    workspaceDirectories := ["/ws"]
    projectTempDir := "/ws/.temp"
    resolve := fun p => p
    shouldGeminiIgnoreFile := fun _ => false
    existsSync := fun _ => some true
    lstatIsFile := fun _ => some true
    parentExists := fun _ => true
    contentGeneratorConfig := cfg }

/-- An environment whose workspace contains nothing, for exercising the
temp-directory carve-out: temp dir `/elsewhere/.temp`, outside `/ws`. -/
def outsideEnv (cfg : ContentGeneratorConfig) : ToolEnv :=
  { isPathWithinWorkspace := fun _ => false
    workspaceDirectories := ["/ws"]
    projectTempDir := "/elsewhere/.temp"
    resolve := fun p => p
    shouldGeminiIgnoreFile := fun _ => false
    existsSync := fun _ => some true
    lstatIsFile := fun _ => some true
    parentExists := fun _ => true
    contentGeneratorConfig := cfg }

/-- A sample remote descriptor (the first one of the list-tool test). -/
def sampleFile : GeminiFile :=
  { name := some "files/test123"
    uri := some "https://generativelanguage.googleapis.com/v1beta/files/test123"
    displayName := some "test1.txt"
    mimeType := some "text/plain"
    sizeBytes := some 100
    state := some "ACTIVE"
    createTime := some "2024-01-01T00:00:00Z" }

/-- A descriptor with every optional field absent. -/
def bareFile : GeminiFile := {}

theorem listInfix_append_left (l t : List Char) : l <:+: l ++ t := ⟨[], t, by simp⟩

theorem listInfix_append_right (l s : List Char) : l <:+: s ++ l := ⟨s, [], by simp⟩

/-- C1: the claim that the Upload authorization-mode check runs and fails
before any sandbox or existence check is false on the code: under Vertex AI
mode, a path outside the sandbox is rejected with the containment message,
not the capability-unavailable message. -/
theorem upload_auth_not_before_sandbox_cex :
    uploadValidateToolParamValues (testEnv vertexConfig)
        { absolute_path := "/outside/root.txt" } =
      some (uploadMsgContainment (testEnv vertexConfig)) ∧
    some (uploadMsgContainment (testEnv vertexConfig)) ≠ some uploadMsgVertex :=
  ⟨by decide, by decide⟩

/-- C1 (amended): the Upload authorization-mode check runs last: the
capability-unavailable message is returned under Vertex AI mode exactly when
every sandbox, ignore-pattern and existence check passes; when the path also
fails an earlier check, that earlier rejection is returned instead. -/
theorem upload_auth_gate_runs_last (env : ToolEnv) (params : UploadFileToolParams)
    (hv : env.contentGeneratorConfig.vertexai = true)
    (h1 : jsTrim params.absolute_path ≠ "")
    (h2 : pathIsAbsolute params.absolute_path = true)
    (h3 : env.isPathWithinWorkspace params.absolute_path = true ∨
      isWithinTempDir env params.absolute_path = true)
    (h4 : env.shouldGeminiIgnoreFile params.absolute_path = false)
    (h5 : env.existsSync params.absolute_path = some true)
    (h6 : env.lstatIsFile params.absolute_path = some true) :
    uploadValidateToolParamValues env params = some uploadMsgVertex := by
  rcases h3 with h3 | h3 <;>
    simp [uploadValidateToolParamValues, h1, h2, h3, h4, h5, h6, hv]

theorem upload_auth_gate_runs_last_witness :
    uploadValidateToolParamValues (testEnv vertexConfig)
        { absolute_path := "/ws/test.txt" } = some uploadMsgVertex :=
  upload_auth_gate_runs_last (testEnv vertexConfig) _ rfl (by decide) (by decide)
    (Or.inl (by decide)) rfl rfl rfl

/-- C2: whenever the filesystem probes return (do not throw), the Upload
validation result is exactly the first applicable rejection among the six
sandbox rules in their spec order — empty, not absolute, containment,
ignore pattern, does not exist, not a regular file — and only when none
fires does the authentication tail decide. -/
theorem upload_validate_first_applicable_rejection
    (env : ToolEnv) (params : UploadFileToolParams) (eb fb : Bool)
    (he : env.existsSync params.absolute_path = some eb)
    (hf : env.lstatIsFile params.absolute_path = some fb) :
    uploadValidateToolParamValues env params =
      match firstApplicable (uploadRejectionRules env params) with
      | some m => some m
      | none => uploadValidateAuth env.contentGeneratorConfig := by
  by_cases h1 : jsTrim params.absolute_path = "" <;>
  cases h2 : pathIsAbsolute params.absolute_path <;>
  cases h3 : env.isPathWithinWorkspace params.absolute_path <;>
  cases h4 : isWithinTempDir env params.absolute_path <;>
  cases h5 : env.shouldGeminiIgnoreFile params.absolute_path <;>
  cases eb <;> cases fb <;>
  cases h6 : env.contentGeneratorConfig.vertexai <;>
  by_cases h7 : env.contentGeneratorConfig.authType ≠ AuthType.USE_GEMINI ∧
      env.contentGeneratorConfig.authType ≠ AuthType.LOGIN_WITH_GOOGLE <;>
  simp_all [uploadValidateToolParamValues, uploadRejectionRules, firstApplicable,
    uploadValidateAuth]

theorem upload_validate_first_applicable_rejection_witness :
    uploadValidateToolParamValues (testEnv geminiConfig)
        { absolute_path := "relative/path.txt" } =
      match firstApplicable (uploadRejectionRules (testEnv geminiConfig)
          { absolute_path := "relative/path.txt" }) with
      | some m => some m
      | none => uploadValidateAuth (testEnv geminiConfig).contentGeneratorConfig :=
  upload_validate_first_applicable_rejection (testEnv geminiConfig) _ true true rfl rfl

/-- C3: a path equal to the project temp directory or nested under it is
admitted by the containment check regardless of workspace membership: the
validation result does not change when the workspace membership test is
replaced by one that always succeeds; for the Upload source path and the
Download target path alike. -/
theorem temp_dir_carveout_admits :
    (∀ (env : ToolEnv) (params : UploadFileToolParams),
      isWithinTempDir env params.absolute_path = true →
      uploadValidateToolParamValues env params =
        uploadValidateToolParamValues
          { env with isPathWithinWorkspace := fun _ => true } params) ∧
    (∀ (env : ToolEnv) (params : DownloadFileToolParams),
      isWithinTempDir env params.download_path = true →
      downloadValidateToolParamValues env params =
        downloadValidateToolParamValues
          { env with isPathWithinWorkspace := fun _ => true } params) := by
  constructor
  · intro env params ht
    simp [uploadValidateToolParamValues, ht]
  · intro env params ht
    simp [downloadValidateToolParamValues, ht]

theorem temp_dir_carveout_admits_witness :
    isWithinTempDir (outsideEnv geminiConfig) "/elsewhere/.temp/f.txt" = true ∧
    uploadValidateToolParamValues (outsideEnv geminiConfig)
        { absolute_path := "/elsewhere/.temp/f.txt" } =
      uploadValidateToolParamValues
        { outsideEnv geminiConfig with isPathWithinWorkspace := fun _ => true }
        { absolute_path := "/elsewhere/.temp/f.txt" } :=
  ⟨by decide, temp_dir_carveout_admits.1 (outsideEnv geminiConfig) _ (by decide)⟩

theorem strIncludes_split (pre mid post whole : String)
    (h : whole.data = pre.data ++ mid.data ++ post.data) : mid.data <:+: whole.data :=
  ⟨pre.data, post.data, h.symm⟩

/-- C4: every failure during `execute` is returned, never raised: an adapter
error becomes the returned ToolResult whose error kind is the upload,
download, or — for a raise at any point of the listing sequence, whatever
was already collected — the list failure kind. -/
theorem execute_failures_become_results :
    (∀ (cfg : ContentGeneratorConfig) (params : UploadFileToolParams) (e : String),
      cfg.vertexai = false →
      uploadExecute cfg params (Except.error e) =
        errResult ("Error uploading file \x27" ++ params.absolute_path ++ "\x27: " ++ e)
          ToolErrorType.FILE_UPLOAD_FAILURE) ∧
    (∀ (params : DownloadFileToolParams) (e : String),
      downloadExecute params (Except.error e) =
        errResult ("Error downloading file \x27" ++ params.file_uri ++ "\x27: " ++ e)
          ToolErrorType.FILE_DOWNLOAD_FAILURE) ∧
    (∀ (cfg : ContentGeneratorConfig) (collected : List GeminiFile) (e : String),
      cfg.vertexai = false →
      listExecute cfg (ListOutcome.failed collected e) =
        errResult ("Error listing files from Gemini API: " ++ e)
          ToolErrorType.FILE_LIST_FAILURE) := by
  refine ⟨?_, ?_, ?_⟩ <;> intros <;>
    simp [uploadExecute, downloadExecute, listExecute, errResult, *]

theorem execute_failures_become_results_witness :
    uploadExecute geminiConfig { absolute_path := "/ws/test.txt" }
        (Except.error "Upload failed") =
      errResult ("Error uploading file \x27" ++ "/ws/test.txt" ++ "\x27: " ++ "Upload failed")
        ToolErrorType.FILE_UPLOAD_FAILURE ∧
    listExecute geminiConfig (ListOutcome.failed [sampleFile] "List failed") =
      errResult ("Error listing files from Gemini API: " ++ "List failed")
        ToolErrorType.FILE_LIST_FAILURE :=
  ⟨execute_failures_become_results.1 geminiConfig _ "Upload failed" rfl,
   execute_failures_become_results.2.2 geminiConfig [sampleFile] "List failed" rfl⟩

/-- C5: the claim is false as stated: the Vertex-branch error result has its
error field set, yet its content string does not contain the word
"Error". -/
theorem vertex_error_strings_lack_error_word_cex :
    (uploadExecute vertexConfig { absolute_path := "/ws/test.txt" }
        (Except.error "boom")).error.isSome = true ∧
    ¬ (("Error").data <:+:
      (uploadExecute vertexConfig { absolute_path := "/ws/test.txt" }
        (Except.error "boom")).llmContent.data) :=
  ⟨by decide, by decide⟩

/-- C5 (amended): for error results produced by the catch branches (adapter
failures), both the content and the display string are the same string,
containing the word "Error" and the underlying failure message; the
capability (Vertex) error results carry the failure message without the
word "Error". -/
theorem catch_error_strings_include_error :
    (∀ (cfg : ContentGeneratorConfig) (params : UploadFileToolParams) (e : String),
      cfg.vertexai = false →
      (uploadExecute cfg params (Except.error e)).returnDisplay =
        (uploadExecute cfg params (Except.error e)).llmContent ∧
      (uploadExecute cfg params (Except.error e)).error.isSome = true ∧
      (("Error").data <:+: (uploadExecute cfg params (Except.error e)).llmContent.data) ∧
      (e.data <:+: (uploadExecute cfg params (Except.error e)).llmContent.data)) ∧
    (∀ (params : DownloadFileToolParams) (e : String),
      (downloadExecute params (Except.error e)).returnDisplay =
        (downloadExecute params (Except.error e)).llmContent ∧
      (downloadExecute params (Except.error e)).error.isSome = true ∧
      (("Error").data <:+: (downloadExecute params (Except.error e)).llmContent.data) ∧
      (e.data <:+: (downloadExecute params (Except.error e)).llmContent.data)) ∧
    (∀ (cfg : ContentGeneratorConfig) (collected : List GeminiFile) (e : String),
      cfg.vertexai = false →
      (listExecute cfg (ListOutcome.failed collected e)).returnDisplay =
        (listExecute cfg (ListOutcome.failed collected e)).llmContent ∧
      (listExecute cfg (ListOutcome.failed collected e)).error.isSome = true ∧
      (("Error").data <:+:
        (listExecute cfg (ListOutcome.failed collected e)).llmContent.data) ∧
      (e.data <:+: (listExecute cfg (ListOutcome.failed collected e)).llmContent.data)) := by
  have hu : ("Error" : String).data <:+: ("Error uploading file \x27" : String).data := by
    decide
  have hd : ("Error" : String).data <:+: ("Error downloading file \x27" : String).data := by
    decide
  have hl : ("Error" : String).data <:+:
      ("Error listing files from Gemini API: " : String).data := by decide
  refine ⟨fun cfg params e hv => ?_, fun params e => ?_, fun cfg collected e hv => ?_⟩
  · have hc : (uploadExecute cfg params (Except.error e)).llmContent =
        "Error uploading file \x27" ++ params.absolute_path ++ "\x27: " ++ e := by
      simp [uploadExecute, hv]
    refine ⟨by simp [uploadExecute, hv], by simp [uploadExecute, hv], ?_, ?_⟩
    · rw [hc]; simp only [String.data_append]
      exact ((hu.trans (listInfix_append_left _ _)).trans
        (listInfix_append_left _ _)).trans (listInfix_append_left _ _)
    · rw [hc]; simp only [String.data_append]
      exact listInfix_append_right _ _
  · have hc : (downloadExecute params (Except.error e)).llmContent =
        "Error downloading file \x27" ++ params.file_uri ++ "\x27: " ++ e := by
      simp [downloadExecute]
    refine ⟨by simp [downloadExecute], by simp [downloadExecute], ?_, ?_⟩
    · rw [hc]; simp only [String.data_append]
      exact ((hd.trans (listInfix_append_left _ _)).trans
        (listInfix_append_left _ _)).trans (listInfix_append_left _ _)
    · rw [hc]; simp only [String.data_append]
      exact listInfix_append_right _ _
  · have hc : (listExecute cfg (ListOutcome.failed collected e)).llmContent =
        "Error listing files from Gemini API: " ++ e := by
      simp [listExecute, hv]
    refine ⟨by simp [listExecute, hv], by simp [listExecute, hv], ?_, ?_⟩
    · rw [hc]; simp only [String.data_append]
      exact hl.trans (listInfix_append_left _ _)
    · rw [hc]; simp only [String.data_append]
      exact listInfix_append_right _ _

theorem catch_error_strings_include_error_witness :
    (("Error").data <:+:
      (uploadExecute geminiConfig { absolute_path := "/ws/test.txt" }
        (Except.error "boom")).llmContent.data) ∧
    (("boom").data <:+:
      (uploadExecute geminiConfig { absolute_path := "/ws/test.txt" }
        (Except.error "boom")).llmContent.data) :=
  ⟨(catch_error_strings_include_error.1 geminiConfig
      { absolute_path := "/ws/test.txt" } "boom" rfl).2.2.1,
   (catch_error_strings_include_error.1 geminiConfig
      { absolute_path := "/ws/test.txt" } "boom" rfl).2.2.2⟩

/-- C6: the List build validation rejects every non-positive page size with
the one fixed message (0 and -1 alike), and accepts every positive page size
as well as an absent page size under an authorized (non-Vertex, Gemini or
OAuth) configuration. -/
theorem list_page_size_validation (cfg : ContentGeneratorConfig) (n : Int) :
    (n ≤ 0 →
      listValidateToolParamValues cfg { page_size := some n } = some listMsgPageSize) ∧
    (0 < n → cfg.vertexai = false →
      (cfg.authType = AuthType.USE_GEMINI ∨ cfg.authType = AuthType.LOGIN_WITH_GOOGLE) →
      listValidateToolParamValues cfg { page_size := some n } = none) ∧
    (cfg.vertexai = false →
      (cfg.authType = AuthType.USE_GEMINI ∨ cfg.authType = AuthType.LOGIN_WITH_GOOGLE) →
      listValidateToolParamValues cfg { page_size := none } = none) := by
  refine ⟨fun hn => ?_, fun hn hv ha => ?_, fun hv ha => ?_⟩
  · simp [listValidateToolParamValues, hn]
  · rcases ha with ha | ha <;>
      simp [listValidateToolParamValues, listValidateAuth, hv, ha, not_le.mpr hn]
  · rcases ha with ha | ha <;>
      simp [listValidateToolParamValues, listValidateAuth, hv, ha]

theorem list_page_size_validation_witness :
    listValidateToolParamValues geminiConfig { page_size := some 0 } =
      some listMsgPageSize ∧
    listValidateToolParamValues geminiConfig { page_size := some (-1) } =
      some listMsgPageSize ∧
    listValidateToolParamValues geminiConfig { page_size := some 1 } = none ∧
    listValidateToolParamValues geminiConfig { page_size := none } = none :=
  ⟨(list_page_size_validation geminiConfig 0).1 (by decide),
   (list_page_size_validation geminiConfig (-1)).1 (by decide),
   (list_page_size_validation geminiConfig 1).2.1 (by decide) rfl (Or.inl rfl),
   (list_page_size_validation geminiConfig 1).2.2 rfl (Or.inl rfl)⟩

/-- C7: the claim is false as stated: the empty-listing content is not
exactly the phrase "No files found" — it is the longer fixed sentence. -/
theorem empty_listing_not_exact_phrase_cex :
    (listExecute geminiConfig (ListOutcome.ok [])).llmContent ≠ "No files found" ∧
    (listExecute geminiConfig (ListOutcome.ok [])).llmContent =
      "No files found in the Gemini API file manager." :=
  ⟨by decide, by decide⟩

/-- C7 (amended): an empty listing is a success — error unset, both strings
the fixed message "No files found in the Gemini API file manager.", which
contains (but does not equal) the phrase "No files found". -/
theorem empty_listing_message (cfg : ContentGeneratorConfig)
    (hv : cfg.vertexai = false) :
    listExecute cfg (ListOutcome.ok []) =
      { llmContent := listEmptyMessage, returnDisplay := listEmptyMessage,
        error := none } ∧
    (("No files found").data <:+: listEmptyMessage.data) := by
  constructor
  · simp [listExecute, hv, listEmptyMessage]
  · decide

theorem empty_listing_message_witness :
    listExecute geminiConfig (ListOutcome.ok []) =
      { llmContent := listEmptyMessage, returnDisplay := listEmptyMessage,
        error := none } :=
  (empty_listing_message geminiConfig rfl).1

theorem specEnumerate_shift (files : List GeminiFile) :
    ∀ k : Nat, List.mapIdx (fun i f => listEntry (i + k) f) files =
      specEnumerate (k + 1) files := by
  induction files with
  | nil => intro k; simp [specEnumerate]
  | cons f fs ih =>
    intro k
    have hfun : (fun i f => listEntry (i + 1 + k) f) =
        (fun i f => listEntry (i + (k + 1)) f) := by
      funext i f; rw [Nat.add_assoc, Nat.add_comm 1 k]
    simp only [List.mapIdx_cons, specEnumerate, Nat.zero_add]
    refine congrArg₂ List.cons rfl ?_
    rw [hfun] at *
    exact ih (k + 1)

theorem mapIdx_listEntry_eq_specEnumerate (files : List GeminiFile) :
    List.mapIdx listEntry files = specEnumerate 1 files := by
  have h := specEnumerate_shift files 0
  simpa using h

/-- C8: a non-empty listing is a success whose content is the code's
formatted message; that message equals the spec-side enumeration — entries
at 1-based positions in exactly the order the sequence produced the
descriptors, each field defaulting to "N/A"/"unknown" when absent — joined
by blank lines inside the "Found n file(s)" header and the trailing hint
pointing at the download tool, and it contains the "Found n file(s)"
phrase. -/
theorem list_format_enumeration (cfg : ContentGeneratorConfig)
    (files : List GeminiFile) (hv : cfg.vertexai = false) (hne : files ≠ []) :
    listExecute cfg (ListOutcome.ok files) = okResult (listSuccessMessage files) ∧
    listSuccessMessage files =
      "Found " ++ toString files.length ++
        " file(s) in Gemini API file manager:\n\n" ++
        joinWith ("\n\n") (specEnumerate 1 files) ++
        "\n\nYou can reference these files in your prompts using their URI, or download them using the download_file tool." ∧
    (("Found " ++ toString files.length ++ " file(s)").data <:+:
      (listSuccessMessage files).data) := by
  refine ⟨?_, ?_, ?_⟩
  · simp [listExecute, hv, okResult, List.length_eq_zero, hne]
  · simp only [listSuccessMessage, mapIdx_listEntry_eq_specEnumerate]
  · have hsplit : (" file(s) in Gemini API file manager:\n\n" : String) =
        " file(s)" ++ " in Gemini API file manager:\n\n" := rfl
    rw [listSuccessMessage, hsplit]
    simp only [String.data_append]
    exact ⟨[], (" in Gemini API file manager:\n\n" : String).data ++
        (joinWith ("\n\n") (List.mapIdx listEntry files)).data ++
        ("\n\nYou can reference these files in your prompts using their URI, or download them using the download_file tool." : String).data,
      by simp [List.append_assoc]⟩

theorem list_format_enumeration_witness :
    listExecute geminiConfig (ListOutcome.ok [sampleFile, bareFile]) =
      okResult (listSuccessMessage [sampleFile, bareFile]) ∧
    listSuccessMessage [sampleFile, bareFile] =
      "Found " ++ toString (List.length [sampleFile, bareFile]) ++
        " file(s) in Gemini API file manager:\n\n" ++
        joinWith ("\n\n") (specEnumerate 1 [sampleFile, bareFile]) ++
        "\n\nYou can reference these files in your prompts using their URI, or download them using the download_file tool." :=
  ⟨(list_format_enumeration geminiConfig [sampleFile, bareFile] rfl (by decide)).1,
   (list_format_enumeration geminiConfig [sampleFile, bareFile] rfl (by decide)).2.1⟩

/-- C9: the claim is false at sizeBytes = 0: 0 is a falsy JS number, so the
summary renders "Size: unknown" for a known zero size, not "0 bytes". -/
theorem upload_size_zero_renders_unknown_cex :
    (("Size: unknown").data <:+:
      (uploadExecute geminiConfig { absolute_path := "/ws/test.txt" }
        (Except.ok { bareFile with sizeBytes := some 0 })).llmContent.data) ∧
    ¬ (("0 bytes").data <:+:
      (uploadExecute geminiConfig { absolute_path := "/ws/test.txt" }
        (Except.ok { bareFile with sizeBytes := some 0 })).llmContent.data) :=
  ⟨by decide, by decide⟩

/-- C9 (amended): a successful upload returns a success result built from
the summary, which contains the remote URI, the MIME type, the lifecycle
state and the size; the size is rendered "<N> bytes" when sizeBytes is
present and nonzero, and "unknown" when it is absent or 0 (the code's JS
number conditional treats a known size of 0 like an absent one). -/
theorem upload_summary_fields (cfg : ContentGeneratorConfig)
    (params : UploadFileToolParams) (file : GeminiFile)
    (hv : cfg.vertexai = false) :
    uploadExecute cfg params (Except.ok file) =
      okResult (uploadSuccessMessage params file) ∧
    (("\nFile URI: " ++ jsShowOpt (jsOrOpt file.uri file.name)).data <:+:
      (uploadSuccessMessage params file).data) ∧
    (("\nMIME Type: " ++ jsShowOpt file.mimeType).data <:+:
      (uploadSuccessMessage params file).data) ∧
    (("\nSize: " ++ renderSize file.sizeBytes).data <:+:
      (uploadSuccessMessage params file).data) ∧
    (("\nState: " ++ jsShowOpt file.state).data <:+:
      (uploadSuccessMessage params file).data) ∧
    (∀ n : Int, n ≠ 0 → renderSize (some n) = toString n ++ " bytes") ∧
    renderSize (some 0) = "unknown" ∧
    renderSize none = "unknown" := by
  refine ⟨?_, ?_, ?_, ?_, ?_, ?_, rfl, rfl⟩
  · simp [uploadExecute, hv, okResult]
  · simp only [uploadSuccessMessage, String.data_append]
    exact ⟨("Successfully uploaded file: " : String).data ++
        (jsOrStr file.displayName (pathBasename params.absolute_path)).data,
      ("\nMIME Type: " : String).data ++ (jsShowOpt file.mimeType).data ++
        ("\nSize: " : String).data ++ (renderSize file.sizeBytes).data ++
        ("\nState: " : String).data ++ (jsShowOpt file.state).data ++
        ("\n\nYou can now reference this file in your prompts using the file URI." : String).data,
      by simp [List.append_assoc]⟩
  · simp only [uploadSuccessMessage, String.data_append]
    exact ⟨("Successfully uploaded file: " : String).data ++
        (jsOrStr file.displayName (pathBasename params.absolute_path)).data ++
        ("\nFile URI: " : String).data ++
        (jsShowOpt (jsOrOpt file.uri file.name)).data,
      ("\nSize: " : String).data ++ (renderSize file.sizeBytes).data ++
        ("\nState: " : String).data ++ (jsShowOpt file.state).data ++
        ("\n\nYou can now reference this file in your prompts using the file URI." : String).data,
      by simp [List.append_assoc]⟩
  · simp only [uploadSuccessMessage, String.data_append]
    exact ⟨("Successfully uploaded file: " : String).data ++
        (jsOrStr file.displayName (pathBasename params.absolute_path)).data ++
        ("\nFile URI: " : String).data ++
        (jsShowOpt (jsOrOpt file.uri file.name)).data ++
        ("\nMIME Type: " : String).data ++ (jsShowOpt file.mimeType).data,
      ("\nState: " : String).data ++ (jsShowOpt file.state).data ++
        ("\n\nYou can now reference this file in your prompts using the file URI." : String).data,
      by simp [List.append_assoc]⟩
  · simp only [uploadSuccessMessage, String.data_append]
    exact ⟨("Successfully uploaded file: " : String).data ++
        (jsOrStr file.displayName (pathBasename params.absolute_path)).data ++
        ("\nFile URI: " : String).data ++
        (jsShowOpt (jsOrOpt file.uri file.name)).data ++
        ("\nMIME Type: " : String).data ++ (jsShowOpt file.mimeType).data ++
        ("\nSize: " : String).data ++ (renderSize file.sizeBytes).data,
      ("\n\nYou can now reference this file in your prompts using the file URI." : String).data,
      by simp [List.append_assoc]⟩
  · intro n hn; simp [renderSize, hn]

theorem upload_summary_fields_witness :
    uploadExecute geminiConfig { absolute_path := "/ws/test.txt" }
        (Except.ok sampleFile) =
      okResult (uploadSuccessMessage { absolute_path := "/ws/test.txt" } sampleFile) ∧
    (("\nSize: " ++ renderSize sampleFile.sizeBytes).data <:+:
      (uploadSuccessMessage { absolute_path := "/ws/test.txt" } sampleFile).data) :=
  ⟨(upload_summary_fields geminiConfig { absolute_path := "/ws/test.txt" }
      sampleFile rfl).1,
   (upload_summary_fields geminiConfig { absolute_path := "/ws/test.txt" }
      sampleFile rfl).2.2.2.1⟩

/-- C10: when the configuration reports Vertex AI at execute time, Upload
and List return the capability error immediately and independently of the
adapter outcome — the result is a constant, so no remote call can influence
it — and the List error is tagged with the download-unsupported kind, not a
list-specific one. -/
theorem execute_vertex_gate_ignores_adapter (cfg : ContentGeneratorConfig)
    (hv : cfg.vertexai = true) :
    (∀ (params : UploadFileToolParams) (adapter : Except String GeminiFile),
      uploadExecute cfg params adapter =
        errResult uploadMsgVertex ToolErrorType.UPLOAD_NOT_SUPPORTED) ∧
    (∀ outcome : ListOutcome,
      listExecute cfg outcome =
        errResult listMsgVertex ToolErrorType.DOWNLOAD_NOT_SUPPORTED) := by
  constructor <;> intros <;> simp [uploadExecute, listExecute, errResult, hv]

theorem execute_vertex_gate_ignores_adapter_witness :
    uploadExecute vertexConfig { absolute_path := "/ws/test.txt" }
        (Except.ok sampleFile) =
      errResult uploadMsgVertex ToolErrorType.UPLOAD_NOT_SUPPORTED ∧
    listExecute vertexConfig (ListOutcome.ok [sampleFile]) =
      errResult listMsgVertex ToolErrorType.DOWNLOAD_NOT_SUPPORTED :=
  ⟨(execute_vertex_gate_ignores_adapter vertexConfig rfl).1
      { absolute_path := "/ws/test.txt" } (Except.ok sampleFile),
   (execute_vertex_gate_ignores_adapter vertexConfig rfl).2
      (ListOutcome.ok [sampleFile])⟩
